import Mathlib

/-!
Shallow embedding of `src/index.ts` of the typed-zod-fetcher repository.

The source is a typed HTTP helper: a core `request` function that creates an
AbortController, issues one `fetch` call, classifies failures by status code
(ClientError for 400-499, ServerError for >= 500), decodes the body as JSON
and validates it with a zod schema, routes every thrown error through
`handleErrors` before re-throwing it, and aborts the controller in a
`finally` block.  Five verb wrappers (`_get`, `_post`, `_put`, `_patch`,
`_delete`) bind fixed `RequestInit` configurations and call `request`.

The embedding makes the effects observable through a `Trace`: how many
AbortControllers were created, which fetch calls were issued (url and
config), which errors were dispatched and to which handler, and how many
times `abort` was invoked.  The transport (`fetch`) and the zod validators
are external collaborators: they are passed in as stub values/functions, as
a test harness would stub them.
-/

/-- A JavaScript `Error` value as the source uses it: a `name` (the error
"kind" that `handleErrors` dispatches on) and a `message`. -/
structure Err where
  name : String
  message : String
deriving Repr, DecidableEq

/-- Decoded JSON values (the result of `response.json()` and the values fed
to zod validators). -/
inductive Json where
  | null : Json
  | bool (b : Bool) : Json
  | num (n : Int) : Json
  | str (s : String) : Json
  | arr (xs : List Json) : Json
  | obj (fields : List (String × Json)) : Json

mutual

/-- The embedding of `JSON.stringify` on decoded values (used by the body
verb wrappers for the request body). -/
def Json.stringify : Json → String
  | .null => "null"
  | .bool true => "true"
  | .bool false => "false"
  | .num n => toString n
  | .str s => "\"" ++ s ++ "\""
  | .arr xs => "[" ++ Json.stringifyList xs ++ "]"
  | .obj fs => "\x7b" ++ Json.stringifyFields fs ++ "\x7d"

/-- Comma-separated serialization of a list of JSON values. -/
def Json.stringifyList : List Json → String
  | [] => ""
  | [x] => Json.stringify x
  | x :: xs => Json.stringify x ++ "," ++ Json.stringifyList xs

/-- Comma-separated serialization of JSON object fields. -/
def Json.stringifyFields : List (String × Json) → String
  | [] => ""
  | [(k, v)] => "\"" ++ k ++ "\":" ++ Json.stringify v
  | (k, v) :: fs => "\"" ++ k ++ "\":" ++ Json.stringify v ++ "," ++ Json.stringifyFields fs

end

/-- A fetch `Response` as the source consumes it: the `ok` flag, the numeric
status, the status text, and the outcome of `await response.json()` (which
may itself throw, e.g. on a non-JSON body). -/
structure Response where
  ok : Bool
  status : Nat
  statusText : String
  json : Except Err Json

/-- The Fetch standard couples the `ok` flag to the status code:
`ok` holds exactly when the status is in the range 200-299.  A stubbed
transport satisfying this predicate behaves like a real `fetch` response. -/
def Response.wellFormed (r : Response) : Prop :=
  r.ok = (decide (200 ≤ r.status) && decide (r.status < 300))

instance (r : Response) : Decidable r.wellFormed := by
  unfold Response.wellFormed; infer_instance

/-- The `RequestInit` configuration the source passes to `fetch` (minus the
abort signal, whose lifecycle the trace records separately). -/
structure RequestConfig where
  method : String
  headers : List (String × String)
  body : Option String
  cache : Option String
deriving Repr, DecidableEq

/-- The values of the source's `HTTPMethods` string enum. -/
def HTTPMethods.GET : String := "GET"

/-- POST member of the `HTTPMethods` enum. -/
def HTTPMethods.POST : String := "POST"

/-- PUT member of the `HTTPMethods` enum. -/
def HTTPMethods.PUT : String := "PUT"

/-- PATCH member of the `HTTPMethods` enum. -/
def HTTPMethods.PATCH : String := "PATCH"

/-- DELETE member of the `HTTPMethods` enum. -/
def HTTPMethods.DELETE : String := "DELETE"

/-- The source's `HTTPHeadersContentType.application_json` header object. -/
def HTTPHeadersContentType.application_json : List (String × String) :=
  [("Content-Type", "application/json")]

/-- The source's `createNetworkError`: an `Error` with name `NetworkError`. -/
def createNetworkError (message : String) : Err :=
  { name := "NetworkError", message := message }

/-- The source's `createClientError`: an `Error` with name `ClientError`. -/
def createClientError (message : String) : Err :=
  { name := "ClientError", message := message }

/-- The source's `createServerError`: an `Error` with name `ServerError`. -/
def createServerError (message : String) : Err :=
  { name := "ServerError", message := message }

/-- Identifiers for the five side-effecting handler functions of the source
(`handleAbortError`, `handleNetworkError`, `handleClientError`,
`handleServerError`, `handleUnexpectedError`).  Each handler only writes a
log line, so the embedding records which one was invoked. -/
inductive Handler where
  | handleAbortError : Handler
  | handleNetworkError : Handler
  | handleClientError : Handler
  | handleServerError : Handler
  | handleUnexpectedError : Handler
deriving Repr, DecidableEq

/-- The source's `errorHandlers` lookup table inside `handleErrors`, keyed by
the error's `name`. -/
def errorHandlers : List (String × Handler) :=
  [("AbortError", Handler.handleAbortError),
   ("NetworkError", Handler.handleNetworkError),
   ("ClientError", Handler.handleClientError),
   ("ServerError", Handler.handleServerError)]

/-- The source's `handleErrors`: look the handler up by `error.name`, fall
back to `handleUnexpectedError` (`errorHandlers[error.name] ||
handleUnexpectedError`), and invoke it.  It returns the handler invoked; it
is a total function, i.e. dispatch never throws. -/
def handleErrors (error : Err) : Handler :=
  match errorHandlers.lookup error.name with
  | some h => h
  | none => Handler.handleUnexpectedError

/-- The message the source interpolates for classified errors:
`` `${response.status}: ${response.statusText}` ``. -/
def statusMessage (r : Response) : String :=
  toString r.status ++ ": " ++ r.statusText

/-- The status-classification block of `request` (source lines 33-39):
when `!response.ok`, throw a ClientError for status in [400,500), a
ServerError for status >= 500, and nothing otherwise. -/
def classifyStatus (r : Response) : Option Err :=
  if r.ok then none
  else if 400 ≤ r.status ∧ r.status < 500 then
    some (createClientError (statusMessage r))
  else if 500 ≤ r.status then
    some (createServerError (statusMessage r))
  else none

/-- The success-path tail of `request` (source line 40):
`responseSchema.parse(await response.json())` — decode the body, then run
the validator on the decoded value. -/
def decodeAndValidate {α : Type} (r : Response) (validator : Json → Except Err α) :
    Except Err α :=
  match r.json with
  | .error e => .error e
  | .ok j => validator j

/-- The body of the `try` block of `request`: await the transport (which may
itself throw), classify the status, and otherwise decode and validate. -/
def attempt {α : Type} (transport : Except Err Response)
    (validator : Json → Except Err α) : Except Err α :=
  match transport with
  | .error e => .error e
  | .ok r =>
    match classifyStatus r with
    | some e => .error e
    | none => decodeAndValidate r validator

/-- Observable effects of one call into the helper: AbortControllers
created, fetch calls issued (url and config), errors dispatched (with the
handler that `handleErrors` invoked), and `abort()` invocations. -/
structure Trace where
  controllers : Nat
  fetches : List (String × RequestConfig)
  dispatched : List (Err × Handler)
  aborts : Nat
deriving Repr, DecidableEq

/-- The empty trace: no controller, no fetch, no dispatch, no abort. -/
def Trace.empty : Trace :=
  { controllers := 0, fetches := [], dispatched := [], aborts := 0 }

/-- The embedding of the core `request` function (source lines 22-49).
One AbortController is created; the fetch call is issued with the caller's
config bound to the signal; the `try` body runs as `attempt`; the `catch`
block dispatches any thrown error through `handleErrors` and re-throws the
same error; the `finally` block aborts the controller on every path.  The
transport outcome is a stub value, as a harness would supply it. -/
def request {α : Type} (url : String) (config : RequestConfig)
    (transport : Except Err Response) (validator : Json → Except Err α) :
    Except Err α × Trace :=
  match attempt transport validator with
  | .ok v =>
    (.ok v,
     { controllers := 1, fetches := [(url, config)], dispatched := [], aborts := 1 })
  | .error e =>
    (.error e,
     { controllers := 1, fetches := [(url, config)],
       dispatched := [(e, handleErrors e)], aborts := 1 })

/-- The `RequestInit` object built by `_get` (source lines 62-70): GET
method, `cache: "no-store"`, an `X-API-KEY` header, no body. -/
def getInit (apiKey : String) : RequestConfig :=
  { method := HTTPMethods.GET, headers := [("X-API-KEY", apiKey)],
    body := none, cache := some "no-store" }

/-- The `RequestInit` object built by the body-carrying wrappers: the given
method, `JSON.stringify` of the parsed query as body, the
`application/json` content-type header, and no cache option. -/
def bodyInit (method : String) (body : String) : RequestConfig :=
  { method := method, headers := HTTPHeadersContentType.application_json,
    body := some body, cache := none }

/-- The embedding of `_get`: call `request` with the GET config. -/
def _get {α : Type} (url : String) (validator : Json → Except Err α)
    (apiKey : String) (transport : Except Err Response) : Except Err α × Trace :=
  request url (getInit apiKey) transport validator

/-- The embedding of `_post` (source lines 81-99).  JavaScript evaluates the
argument object before the call, so `querySchema.parse(query)` runs first:
if it throws, `request` is never invoked and the error propagates with no
observable effect (empty trace). -/
def _post {α β : Type} (url : String) (queryParse : β → Except Err Json)
    (query : β) (validator : Json → Except Err α)
    (transport : Except Err Response) : Except Err α × Trace :=
  match queryParse query with
  | .error e => (.error e, Trace.empty)
  | .ok parsed =>
    request url (bodyInit HTTPMethods.POST parsed.stringify) transport validator

/-- The embedding of `_put` (source lines 109-127), same shape as `_post`. -/
def _put {α β : Type} (url : String) (queryParse : β → Except Err Json)
    (query : β) (validator : Json → Except Err α)
    (transport : Except Err Response) : Except Err α × Trace :=
  match queryParse query with
  | .error e => (.error e, Trace.empty)
  | .ok parsed =>
    request url (bodyInit HTTPMethods.PUT parsed.stringify) transport validator

/-- The embedding of `_patch` (source lines 137-155), same shape as `_post`. -/
def _patch {α β : Type} (url : String) (queryParse : β → Except Err Json)
    (query : β) (validator : Json → Except Err α)
    (transport : Except Err Response) : Except Err α × Trace :=
  match queryParse query with
  | .error e => (.error e, Trace.empty)
  | .ok parsed =>
    request url (bodyInit HTTPMethods.PATCH parsed.stringify) transport validator

/-- The embedding of `_delete` (source lines 165-183), same shape as `_post`. -/
def _delete {α β : Type} (url : String) (queryParse : β → Except Err Json)
    (query : β) (validator : Json → Except Err α)
    (transport : Except Err Response) : Except Err α × Trace :=
  match queryParse query with
  | .error e => (.error e, Trace.empty)
  | .ok parsed =>
    request url (bodyInit HTTPMethods.DELETE parsed.stringify) transport validator

/-! Concrete fixtures used by the witnesses and counterexamples. -/

/-- A bare GET config with no cache option. -/
def cfg0 : RequestConfig :=
  { method := HTTPMethods.GET, headers := [], body := none, cache := none }

/-- The identity validator: accepts every decoded value and returns it
unchanged (a zod schema that matches and preserves the input). -/
def idVal : Json → Except Err Json := fun j => .ok j

/-- A validator failure, as the validation boundary contract produces it. -/
def validationFailure : Err :=
  { name := "ValidationError", message := "invalid_type" }

/-- A validator that rejects every value with a ValidationError. -/
def rejectVal : Json → Except Err Json := fun _ => .error validationFailure

/-- The decoded body of the spec's concrete scenario. -/
def userJson : Json := .obj [("id", .num 1), ("name", .str "Ana")]

/-- A 404 response. -/
def resp404 : Response :=
  { ok := false, status := 404, statusText := "Not Found", json := .ok Json.null }

/-- The spec's concrete 500 scenario response. -/
def resp500 : Response :=
  { ok := false, status := 500, statusText := "Internal Server Error",
    json := .ok Json.null }

/-- The spec's concrete 200 scenario response. -/
def resp200 : Response :=
  { ok := true, status := 200, statusText := "OK", json := .ok userJson }

/-- A response with no status (status 0), not ok. -/
def resp0 : Response :=
  { ok := false, status := 0, statusText := "", json := .ok Json.null }

/-- How a transport-level fetch failure manifests: a TypeError. -/
def transportErr : Err := { name := "TypeError", message := "Failed to fetch" }

/-- A query-schema failure as zod throws it. -/
def zodErr : Err := { name := "ZodError", message := "invalid_type" }

/-- A query parser that rejects every query. -/
def qpFail : Json → Except Err Json := fun _ => .error zodErr

/-- A query parser that accepts every query unchanged. -/
def qpId : Json → Except Err Json := fun j => .ok j

/-- A validator failing with a kind outside the four mapped ones. -/
def weirdVal : Json → Except Err Json :=
  fun _ => .error { name := "WeirdError", message := "boom" }

/-! Helper lemmas about the embedding. -/

/-- The value `request` resolves to or fails with is exactly the outcome of
the `try` body: the `catch` block re-throws the same error. -/
theorem request_fst_eq {α : Type} (url : String) (config : RequestConfig)
    (t : Except Err Response) (v : Json → Except Err α) :
    (request url config t v).fst = attempt t v := by
  unfold request
  split <;> simp_all

/-- Every call to `request` issues exactly one fetch call, with the caller's
url and config, on every path. -/
theorem request_fetches {α : Type} (url : String) (config : RequestConfig)
    (t : Except Err Response) (v : Json → Except Err α) :
    (request url config t v).snd.fetches = [(url, config)] := by
  unfold request
  split <;> rfl

/-- An error whose name is none of the four mapped kinds falls through the
lookup to the default `handleUnexpectedError` handler. -/
theorem handleErrors_default (e : Err)
    (h1 : e.name ≠ "AbortError") (h2 : e.name ≠ "NetworkError")
    (h3 : e.name ≠ "ClientError") (h4 : e.name ≠ "ServerError") :
    handleErrors e = Handler.handleUnexpectedError := by
  have b1 : (e.name == "AbortError") = false := beq_eq_false_iff_ne.mpr h1
  have b2 : (e.name == "NetworkError") = false := beq_eq_false_iff_ne.mpr h2
  have b3 : (e.name == "ClientError") = false := beq_eq_false_iff_ne.mpr h3
  have b4 : (e.name == "ServerError") = false := beq_eq_false_iff_ne.mpr h4
  unfold handleErrors errorHandlers
  simp [List.lookup, b1, b2, b3, b4]

/-! The claims. -/

/-- C1: for every well-formed response whose status is in [400,500),
`request` fails with the ClientError built from "<status>: <statusText>"
(whose kind name is "ClientError").  The conclusion holds for every
validator and every response body, so the body is never decoded or
validated on this path. -/
theorem C1_client_error_range {α : Type} (url : String) (config : RequestConfig)
    (r : Response) (validator : Json → Except Err α)
    (hw : r.wellFormed) (h4 : 400 ≤ r.status) (h5 : r.status < 500) :
    (request url config (.ok r) validator).fst
      = .error (createClientError (statusMessage r))
    ∧ (createClientError (statusMessage r)).name = "ClientError" := by
  have hok : r.ok = false := by
    rw [hw]
    have : ¬ r.status < 300 := by omega
    simp [this]
  refine ⟨?_, rfl⟩
  rw [request_fst_eq]
  simp [attempt, classifyStatus, hok, h4, h5]

/-- C1 witness: status 404 with statusText "Not Found" fails with a
ClientError whose message is "404: Not Found" (containing "404"). -/
theorem C1_client_error_range_witness :
    (request "https://api.example.com/users/1" cfg0 (.ok resp404) idVal).fst
      = .error { name := "ClientError", message := "404: Not Found" }
    ∧ ({ name := "ClientError", message := "404: Not Found" } : Err).name
      = "ClientError" := by
  have h := C1_client_error_range "https://api.example.com/users/1" cfg0 resp404
    idVal (by decide) (by decide) (by decide)
  have e : createClientError (statusMessage resp404)
      = { name := "ClientError", message := "404: Not Found" } := by decide
  exact ⟨by rw [← e]; exact h.1, rfl⟩

/-- C2: for every well-formed response whose status is at least 500,
`request` fails with the ServerError built from "<status>: <statusText>"
(whose kind name is "ServerError"). -/
theorem C2_server_error_range {α : Type} (url : String) (config : RequestConfig)
    (r : Response) (validator : Json → Except Err α)
    (hw : r.wellFormed) (h5 : 500 ≤ r.status) :
    (request url config (.ok r) validator).fst
      = .error (createServerError (statusMessage r))
    ∧ (createServerError (statusMessage r)).name = "ServerError" := by
  have hok : r.ok = false := by
    rw [hw]
    have : ¬ r.status < 300 := by omega
    simp [this]
  have hnc : ¬ (400 ≤ r.status ∧ r.status < 500) := by omega
  refine ⟨?_, rfl⟩
  rw [request_fst_eq]
  simp [attempt, classifyStatus, hok, hnc, h5]

/-- C2 witness: the spec's concrete scenario — status 500 with statusText
"Internal Server Error" fails with a ServerError whose message is exactly
"500: Internal Server Error". -/
theorem C2_server_error_range_witness :
    (request "https://api.example.com/users/1" cfg0 (.ok resp500) idVal).fst
      = .error { name := "ServerError", message := "500: Internal Server Error" }
    ∧ ({ name := "ServerError", message := "500: Internal Server Error" } : Err).name
      = "ServerError" := by
  have h := C2_server_error_range "https://api.example.com/users/1" cfg0 resp500
    idVal (by decide) (by decide)
  have e : createServerError (statusMessage resp500)
      = { name := "ServerError", message := "500: Internal Server Error" } := by decide
  exact ⟨by rw [← e]; exact h.1, rfl⟩

/-- C3: when the transport returns a well-formed status-200 response whose
body decodes to a JSON value the validator accepts, `request` resolves to
the validated value (structural equality with the decoded JSON is the
validator's doing, instantiated in the witness below). -/
theorem C3_success_resolves {α : Type} (url : String) (config : RequestConfig)
    (r : Response) (validator : Json → Except Err α) (j : Json) (v : α)
    (hw : r.wellFormed) (hs : r.status = 200) (hb : r.json = .ok j)
    (hv : validator j = .ok v) :
    (request url config (.ok r) validator).fst = .ok v := by
  have hok : r.ok = true := by
    rw [hw, hs]
    decide
  rw [request_fst_eq]
  simp [attempt, classifyStatus, decodeAndValidate, hok, hb, hv]

/-- C3 witness: the spec's concrete scenario — status 200 with body
`obj [id 1, name Ana]` and an accepting, value-preserving validator
resolves to exactly that decoded JSON value. -/
theorem C3_success_resolves_witness :
    (request "https://api.example.com/users/1" cfg0 (.ok resp200) idVal).fst
      = .ok userJson :=
  C3_success_resolves "https://api.example.com/users/1" cfg0 resp200 idVal
    userJson userJson (by decide) rfl rfl rfl

/-- C4: when the transport returns a well-formed status-200 response whose
decoded body the validator rejects, `request` fails with exactly the
validator's ValidationError — it is propagated, not swallowed, and its kind
is neither ClientError nor ServerError. -/
theorem C4_validation_failure {α : Type} (url : String) (config : RequestConfig)
    (r : Response) (validator : Json → Except Err α) (j : Json) (e : Err)
    (hw : r.wellFormed) (hs : r.status = 200) (hb : r.json = .ok j)
    (hv : validator j = .error e) (hn : e.name = "ValidationError") :
    (request url config (.ok r) validator).fst = .error e
    ∧ e.name ≠ "ClientError" ∧ e.name ≠ "ServerError" := by
  have hok : r.ok = true := by
    rw [hw, hs]
    decide
  refine ⟨?_, by rw [hn]; decide, by rw [hn]; decide⟩
  rw [request_fst_eq]
  simp [attempt, classifyStatus, decodeAndValidate, hok, hb, hv]

/-- C4 witness: a status-200 response whose body the validator rejects
fails with the validator's ValidationError, whose kind is not ClientError
or ServerError. -/
theorem C4_validation_failure_witness :
    (request "https://api.example.com/users/1" cfg0 (.ok resp200) rejectVal).fst
      = .error validationFailure
    ∧ validationFailure.name ≠ "ClientError"
    ∧ validationFailure.name ≠ "ServerError" :=
  C4_validation_failure "https://api.example.com/users/1" cfg0 resp200 rejectVal
    userJson validationFailure (by decide) rfl rfl rfl rfl

/-- C5: every error thrown inside the `try` body of `request` (transport,
classification, decoding or validation) is dispatched through
`handleErrors` exactly once — with the handler the lookup selects, the
default `handleUnexpectedError` when the kind name is not one of the four
mapped ones — and the error re-thrown to the caller is the very error that
was dispatched. -/
theorem C5_dispatch_once {α : Type} (url : String) (config : RequestConfig)
    (t : Except Err Response) (v : Json → Except Err α) (e : Err)
    (h : (request url config t v).fst = .error e) :
    (request url config t v).snd.dispatched = [(e, handleErrors e)]
    ∧ (e.name ≠ "AbortError" → e.name ≠ "NetworkError" → e.name ≠ "ClientError"
        → e.name ≠ "ServerError" → handleErrors e = Handler.handleUnexpectedError) := by
  refine ⟨?_, fun h1 h2 h3 h4 => handleErrors_default e h1 h2 h3 h4⟩
  have hfst := request_fst_eq url config t v
  unfold request at h ⊢
  rcases ha : attempt t v with e' | a
  · rw [ha] at h
    simp at h
    simp [ha, h]
  · rw [ha] at h
    simp at h

/-- C5 witness: a rejecting validator whose error kind "WeirdError" is none
of the four mapped kinds is dispatched exactly once, to the default
`handleUnexpectedError` handler, and re-thrown unchanged. -/
theorem C5_dispatch_once_witness :
    (request "https://api.example.com/users/1" cfg0 (.ok resp200)
        weirdVal).snd.dispatched
      = [({ name := "WeirdError", message := "boom" },
          Handler.handleUnexpectedError)] := by
  have h := C5_dispatch_once "https://api.example.com/users/1" cfg0 (.ok resp200)
    weirdVal { name := "WeirdError", message := "boom" } rfl
  rw [h.1, h.2 (by decide) (by decide) (by decide) (by decide)]

/-- C6: every call to `request` creates exactly one AbortController and
aborts it exactly once, on every exit path (success, classified error,
validation failure, unexpected error). -/
theorem C6_token_released_once {α : Type} (url : String) (config : RequestConfig)
    (t : Except Err Response) (v : Json → Except Err α) :
    (request url config t v).snd.controllers = 1
    ∧ (request url config t v).snd.aborts = 1 := by
  unfold request
  split <;> exact ⟨rfl, rfl⟩

/-- C7: a response that is not ok but has status below 400 (e.g. status 0
or an unfollowed 3xx) raises neither ClientError nor ServerError: `request`
behaves exactly as on the success path, decoding the body and running the
validator. -/
theorem C7_not_ok_below_400 {α : Type} (url : String) (config : RequestConfig)
    (r : Response) (validator : Json → Except Err α)
    (hok : r.ok = false) (hlt : r.status < 400) :
    (request url config (.ok r) validator).fst
      = (request url config (.ok { r with ok := true }) validator).fst
    ∧ (request url config (.ok r) validator).fst = decodeAndValidate r validator := by
  have hnc : ¬ (400 ≤ r.status ∧ r.status < 500) := by omega
  have hns : ¬ 500 ≤ r.status := by omega
  have h2 : (request url config (.ok r) validator).fst
      = decodeAndValidate r validator := by
    rw [request_fst_eq]
    simp [attempt, classifyStatus, hok, hnc, hns]
  refine ⟨?_, h2⟩
  rw [h2, request_fst_eq]
  simp [attempt, classifyStatus, decodeAndValidate]

/-- C7 witness: a response with status 0 and ok false falls through to
decoding and validation, resolving like the success path. -/
theorem C7_not_ok_below_400_witness :
    (request "https://api.example.com/users/1" cfg0 (.ok resp0) idVal).fst
      = (request "https://api.example.com/users/1" cfg0
          (.ok { resp0 with ok := true }) idVal).fst
    ∧ (request "https://api.example.com/users/1" cfg0 (.ok resp0) idVal).fst
      = decodeAndValidate resp0 idVal :=
  C7_not_ok_below_400 "https://api.example.com/users/1" cfg0 resp0 idVal rfl
    (by decide)

/-- C8: when the transport itself throws (no response), `request` never
constructs a NetworkError: the transport's own error — whose kind name is
none of the four mapped kinds — is dispatched to the default
`handleUnexpectedError` handler and re-thrown unchanged to the caller. -/
theorem C8_transport_failure_generic {α : Type} (url : String)
    (config : RequestConfig) (e : Err) (validator : Json → Except Err α)
    (h1 : e.name ≠ "AbortError") (h2 : e.name ≠ "NetworkError")
    (h3 : e.name ≠ "ClientError") (h4 : e.name ≠ "ServerError") :
    (request url config (.error e) validator).fst = .error e
    ∧ (request url config (.error e) validator).snd.dispatched
        = [(e, Handler.handleUnexpectedError)]
    ∧ e.name ≠ (createNetworkError e.message).name := by
  have hd : handleErrors e = Handler.handleUnexpectedError :=
    handleErrors_default e h1 h2 h3 h4
  have ha : attempt (α := α) (.error e) validator = .error e := rfl
  refine ⟨?_, ?_, h2⟩
  · rw [request_fst_eq]
    exact ha
  · show [(e, handleErrors e)] = [(e, Handler.handleUnexpectedError)]
    rw [hd]

/-- C8 witness: a transport-level TypeError ("Failed to fetch") is
re-thrown unchanged, dispatched once to `handleUnexpectedError`, and is not
a NetworkError. -/
theorem C8_transport_failure_generic_witness :
    (request "https://api.example.com/users/1" cfg0 (.error transportErr) idVal).fst
      = .error transportErr
    ∧ (request "https://api.example.com/users/1" cfg0 (.error transportErr)
        idVal).snd.dispatched
      = [(transportErr, Handler.handleUnexpectedError)]
    ∧ transportErr.name ≠ (createNetworkError transportErr.message).name :=
  C8_transport_failure_generic "https://api.example.com/users/1" cfg0 transportErr
    idVal (by decide) (by decide) (by decide) (by decide)

/-- C9 counterexample: a concrete `_post` call issues its fetch with no
cache option at all (`cache` is absent, not "no-store"), so the network
call is not issued with caching disabled, contradicting the claim that
every call through `request` disables caching. -/
theorem C9_counterexample_post_cache :
    ((_post "https://api.example.com/users" qpId userJson idVal
        (.ok resp200)).snd.fetches.map fun p => p.snd.cache) = [none]
    ∧ (none : Option String) ≠ some "no-store" := by
  exact ⟨rfl, by decide⟩

/-- C9 (amended): only `_get` issues the network call with caching disabled
(`cache: "no-store"`); the body-carrying wrappers `_post`, `_put`,
`_patch`, `_delete` pass no cache option, so `request` issues their calls
with the transport's default caching. -/
theorem C9_cache_per_wrapper {α β : Type} (url key : String)
    (validator : Json → Except Err α) (t : Except Err Response)
    (qp : β → Except Err Json) (q : β) (pj : Json) (hq : qp q = .ok pj) :
    ((_get url validator key t).snd.fetches.map fun p => p.snd.cache)
      = [some "no-store"]
    ∧ ((_post url qp q validator t).snd.fetches.map fun p => p.snd.cache) = [none]
    ∧ ((_put url qp q validator t).snd.fetches.map fun p => p.snd.cache) = [none]
    ∧ ((_patch url qp q validator t).snd.fetches.map fun p => p.snd.cache) = [none]
    ∧ ((_delete url qp q validator t).snd.fetches.map fun p => p.snd.cache)
      = [none] := by
  unfold _get _post _put _patch _delete
  rw [hq]
  simp [request_fetches, getInit, bodyInit]

/-- C9 (amended) witness: concrete calls through all five wrappers show
`_get` alone carrying the "no-store" cache option. -/
theorem C9_cache_per_wrapper_witness :
    ((_get "https://api.example.com/users" idVal "key"
        (.ok resp200)).snd.fetches.map fun p => p.snd.cache) = [some "no-store"]
    ∧ ((_post "https://api.example.com/users" qpId userJson idVal
        (.ok resp200)).snd.fetches.map fun p => p.snd.cache) = [none]
    ∧ ((_put "https://api.example.com/users" qpId userJson idVal
        (.ok resp200)).snd.fetches.map fun p => p.snd.cache) = [none]
    ∧ ((_patch "https://api.example.com/users" qpId userJson idVal
        (.ok resp200)).snd.fetches.map fun p => p.snd.cache) = [none]
    ∧ ((_delete "https://api.example.com/users" qpId userJson idVal
        (.ok resp200)).snd.fetches.map fun p => p.snd.cache) = [none] :=
  C9_cache_per_wrapper "https://api.example.com/users" "key" idVal (.ok resp200)
    qpId userJson userJson rfl

/-- C10: when the query fails its schema in a body-carrying wrapper, the
error is thrown before `request` is invoked: the wrapper returns exactly
the parse error with the empty trace — no fetch issued, no
AbortController created, no abort, and no dispatch through
`handleErrors`. -/
theorem C10_query_parse_failure {α β : Type} (url : String)
    (qp : β → Except Err Json) (q : β) (validator : Json → Except Err α)
    (t : Except Err Response) (e : Err) (hq : qp q = .error e) :
    _post url qp q validator t = (.error e, Trace.empty)
    ∧ _put url qp q validator t = (.error e, Trace.empty)
    ∧ _patch url qp q validator t = (.error e, Trace.empty)
    ∧ _delete url qp q validator t = (.error e, Trace.empty) := by
  unfold _post _put _patch _delete
  rw [hq]
  exact ⟨rfl, rfl, rfl, rfl⟩

/-- C10 witness: a ZodError thrown by the query schema propagates from all
four body-carrying wrappers with the empty trace. -/
theorem C10_query_parse_failure_witness :
    _post "https://api.example.com/users" qpFail userJson idVal (.ok resp200)
      = (.error zodErr, Trace.empty)
    ∧ _put "https://api.example.com/users" qpFail userJson idVal (.ok resp200)
      = (.error zodErr, Trace.empty)
    ∧ _patch "https://api.example.com/users" qpFail userJson idVal (.ok resp200)
      = (.error zodErr, Trace.empty)
    ∧ _delete "https://api.example.com/users" qpFail userJson idVal (.ok resp200)
      = (.error zodErr, Trace.empty) :=
  C10_query_parse_failure "https://api.example.com/users" qpFail userJson idVal
    (.ok resp200) zodErr rfl
